import Mathlib

/-!
# dLeyna D-Bus connector (`src/connector-dbus.c`)

A shallow embedding of the connector: the process-wide context `g_context`, the two GLib hash
tables it owns, the object / subtree registry, the subtree dispatch engine, the client presence
tracker and the start-up / tear-down functions.

Conventions of the embedding.

* The global `g_context` is passed explicitly inside a `World`, together with the trace of calls
  made to the transport (GDBus) and to the callbacks of the service, oldest first.
* Heap blocks are held by value, with one exception: the `guint` keys of the objects table,
  which that table compares by address. The `World` numbers the key blocks handed out so far.
* What the transport answers (a registration id, a watch id, a parsed document) is an argument of
  the function that asks for it, so every statement holds for every transport.
* A C statement with no defined result (NULL dereference, read outside an array, call through a
  NULL function pointer) makes the function return `Except.error`.
* `guint` values are natural numbers; the one place where the source does arithmetic on them that
  can wrap (`dispatch_table_size + 1`) is reduced modulo `2 ^ 32`.
* Function pointers that are only called for their effect are identified by a number and the call
  is recorded in the trace; the filter callback, whose answer steers the code, is a function.
-/

namespace DleynaConnectorDbus

/-! ## Data model -/

/-- Ways in which a statement of the connector has no defined result: a NULL pointer is
dereferenced, an array is read or written outside its bounds, a NULL function pointer is
called, or a GLib hash-table function is called on a NULL table. -/
inductive Fault where
  | null_deref
  | out_of_bounds
  | null_call
  | null_table
  deriving DecidableEq, Repr

/-- Number of values of a `guint`. -/
def guint_modulus : Nat := 2 ^ 32

/-- Error kinds of `libdleyna/core/error.h`, in the order of `g_error_entries`. -/
inductive dleyna_error_t where
  | DLEYNA_ERROR_BAD_PATH
  | DLEYNA_ERROR_OBJECT_NOT_FOUND
  | DLEYNA_ERROR_BAD_QUERY
  | DLEYNA_ERROR_OPERATION_FAILED
  | DLEYNA_ERROR_BAD_RESULT
  | DLEYNA_ERROR_UNKNOWN_INTERFACE
  | DLEYNA_ERROR_UNKNOWN_PROPERTY
  | DLEYNA_ERROR_DEVICE_NOT_FOUND
  | DLEYNA_ERROR_DIED
  | DLEYNA_ERROR_CANCELLED
  | DLEYNA_ERROR_NOT_SUPPORTED
  | DLEYNA_ERROR_LOST_OBJECT
  | DLEYNA_ERROR_BAD_MIME
  | DLEYNA_ERROR_HOST_FAILED
  | DLEYNA_ERROR_IO
  deriving DecidableEq, Repr

/-- One interface of a parsed introspection document: its name and its method names. -/
structure GDBusInterfaceInfo where
  name : String
  methods : List String
  deriving DecidableEq, Repr

/-- A parsed introspection document. In C `interfaces` is a NULL-terminated array of pointers;
here it is the list of the entries before the terminator. -/
structure GDBusNodeInfo where
  interfaces : List GDBusInterfaceInfo
  deriving DecidableEq, Repr

/-- The C expression `node->interfaces[i]`: an interface, the NULL terminator at `i = length`,
or a read outside the array beyond it. -/
def GDBusNodeInfo.interfaces_at (node : GDBusNodeInfo) (i : Nat) :
    Except Fault (Option GDBusInterfaceInfo) :=
  if i < node.interfaces.length then .ok node.interfaces[i]?
  else if i = node.interfaces.length then .ok none
  else .error .out_of_bounds

/-- Address of a C object: a block returned by `g_new` / `g_new0`, or a local variable or
parameter of a running function. The two kinds never coincide. -/
inductive Addr where
  | heap (block : Nat)
  | stack (slot : String)
  deriving DecidableEq, Repr

/-- A `guint *`: the address it holds and the value stored at that address. -/
structure guint_ptr where
  addr : Addr
  deref : Nat
  deriving DecidableEq, Repr

/-- GLib `g_direct_equal`: the two pointers are the same pointer. -/
def g_direct_equal (v1 v2 : guint_ptr) : Bool := v1.addr == v2.addr

/-- GLib `g_str_equal`: the two strings have the same content. -/
def g_str_equal (v1 v2 : String) : Bool := v1 == v2

/-- GLib `g_hash_table_lookup` on a table with key equality `key_equal`. -/
def g_hash_table_lookup {κ ν : Type} (key_equal : κ → κ → Bool) (table : List (κ × ν))
    (key : κ) : Option ν :=
  (table.find? (fun e => key_equal e.1 key)).map (fun e => e.2)

/-- GLib `g_hash_table_insert`: the value of an equal key is replaced (the old key stays),
otherwise the pair is added. -/
def g_hash_table_insert {κ ν : Type} (key_equal : κ → κ → Bool) (table : List (κ × ν))
    (key : κ) (value : ν) : List (κ × ν) :=
  if table.any (fun e => key_equal e.1 key) then
    table.map (fun e => if key_equal e.1 key then (e.1, value) else e)
  else
    table ++ [(key, value)]

/-- GLib `g_hash_table_remove`: the entry with an equal key is dropped. A hash table holds at
most one entry per key, so this drops every entry whose key is equal. -/
def g_hash_table_remove {κ ν : Type} (key_equal : κ → κ → Bool) (table : List (κ × ν))
    (key : κ) : List (κ × ν) :=
  table.filter (fun e => !key_equal e.1 key)

/-- The type `dleyna_connector_interface_filter_cb_t`: (object path, node, interface name). -/
abbrev dleyna_connector_interface_filter_cb_t := String → String → String → Bool

/-- The struct `dleyna_dbus_object_t_`: one published registration. `dispatch_table` is the
caller's handler array, each handler identified by a number. -/
structure dleyna_dbus_object_t where
  id : Nat
  root_path : Option String
  dispatch_table : List Nat
  dispatch_table_size : Nat
  filter_cb : Option dleyna_connector_interface_filter_cb_t

/-- The struct `dleyna_dbus_call_info_t_`: the per-call routing context of a subtree call. -/
structure dleyna_dbus_call_info_t where
  object : dleyna_dbus_object_t
  interface_index : Nat

/-- The struct `dleyna_dbus_context_t_`. `objects` is created with
`g_direct_hash` / `g_direct_equal` and holds `guint *` keys; `clients` is created with
`g_str_hash` / `g_str_equal` and maps a name to the stored watch id. -/
structure dleyna_dbus_context_t where
  objects : Option (List (guint_ptr × dleyna_dbus_object_t))
  clients : Option (List (String × Nat))
  root_node_info : Option GDBusNodeInfo
  server_node_info : Option GDBusNodeInfo
  owner_id : Nat
  connection : Option Nat
  connected_cb : Option Nat
  disconnected_cb : Option Nat
  client_lost_cb : Option Nat

/-- The arguments every method handler receives. -/
structure CallArgs where
  conn : Nat
  sender : String
  object_path : String
  interface : String
  method : String
  parameters : Nat
  invocation : Nat
  deriving DecidableEq, Repr

/-- Calls that leave the connector: to the transport and to the callbacks of the service.
Arguments that are the same in every call (the static vtables, the subtree flag, the bus type,
NULL) are not recorded. `client_lost_cb` records the clients table as the callback finds it. -/
inductive Event where
  | g_dbus_error_register_error (error_quark : Nat) (error_code : dleyna_error_t)
      (dbus_error_name : String)
  | g_bus_own_name (server_name : String) (owner_id : Nat)
  | g_bus_unown_name (owner_id : Nat)
  | g_bus_watch_name (client_name : String) (watch_id : Nat)
  | g_bus_unwatch_name (watch_id : Nat)
  | g_dbus_connection_register_object (connection : Nat) (object_path : String)
      (info : Option GDBusInterfaceInfo) (object_id : Nat)
  | g_dbus_connection_register_subtree (connection : Nat) (object_path : String)
      (object_id : Nat)
  | g_dbus_connection_unregister_object (connection : Nat) (object_id : Nat)
  | g_dbus_connection_unregister_subtree (connection : Nat) (object_id : Nat)
  | g_hash_table_unref_objects
  | g_hash_table_unref_clients
  | g_object_unref (connection : Nat)
  | g_dbus_node_info_unref_server
  | g_dbus_node_info_unref_root
  | connected_cb (cb : Nat) (connection : Nat)
  | disconnected_cb (cb : Nat) (connection : Nat)
  | client_lost_cb (cb : Nat) (name : String) (clients : Option (List (String × Nat)))
  | dispatch_cb (cb : Nat) (args : CallArgs)
  | g_dbus_method_invocation_return_value (message_id : Nat) (parameters : Nat)
  | g_dbus_method_invocation_return_gerror (message_id : Nat) (error : dleyna_error_t)
  | g_dbus_connection_emit_signal (connection : Nat) (object_path : String)
      (interface_name : String) (notification_name : String) (parameters : Nat)
  deriving DecidableEq, Repr

/-- The state the connector runs in: the context, the number of registry key blocks handed out
so far, and the calls that left the connector, oldest first. -/
structure World where
  g_context : dleyna_dbus_context_t
  heap_next : Nat
  trace : List Event

/-- Record a call that leaves the connector. -/
def World.emit (w : World) (e : Event) : World :=
  { w with trace := w.trace ++ [e] }

/-- The C call `g_new (guint, 1)` for a registry key: a fresh heap address. -/
def World.g_new (w : World) : Addr × World :=
  (Addr.heap w.heap_next, { w with heap_next := w.heap_next + 1 })

/-- The zeroed context: what `memset(&g_context, 0, sizeof(g_context))` leaves, and what the
static `g_context` holds before the first call. -/
def zero_context : dleyna_dbus_context_t :=
  { objects := none, clients := none, root_node_info := none, server_node_info := none,
    owner_id := 0, connection := none, connected_cb := none, disconnected_cb := none,
    client_lost_cb := none }

/-- The world before the connector has been called. -/
def World.start : World :=
  { g_context := zero_context, heap_next := 0, trace := [] }

/-- The macro `DLEYNA_SERVICE`. -/
def DLEYNA_SERVICE : String := "com.intel.dleyna"

/-- The table `g_error_entries`. -/
def g_error_entries : List (dleyna_error_t × String) :=
  [ (.DLEYNA_ERROR_BAD_PATH, DLEYNA_SERVICE ++ ".BadPath"),
    (.DLEYNA_ERROR_OBJECT_NOT_FOUND, DLEYNA_SERVICE ++ ".ObjectNotFound"),
    (.DLEYNA_ERROR_BAD_QUERY, DLEYNA_SERVICE ++ ".BadQuery"),
    (.DLEYNA_ERROR_OPERATION_FAILED, DLEYNA_SERVICE ++ ".OperationFailed"),
    (.DLEYNA_ERROR_BAD_RESULT, DLEYNA_SERVICE ++ ".BadResult"),
    (.DLEYNA_ERROR_UNKNOWN_INTERFACE, DLEYNA_SERVICE ++ ".UnknownInterface"),
    (.DLEYNA_ERROR_UNKNOWN_PROPERTY, DLEYNA_SERVICE ++ ".UnknownProperty"),
    (.DLEYNA_ERROR_DEVICE_NOT_FOUND, DLEYNA_SERVICE ++ ".DeviceNotFound"),
    (.DLEYNA_ERROR_DIED, DLEYNA_SERVICE ++ ".Died"),
    (.DLEYNA_ERROR_CANCELLED, DLEYNA_SERVICE ++ ".Cancelled"),
    (.DLEYNA_ERROR_NOT_SUPPORTED, DLEYNA_SERVICE ++ ".NotSupported"),
    (.DLEYNA_ERROR_LOST_OBJECT, DLEYNA_SERVICE ++ ".LostObject"),
    (.DLEYNA_ERROR_BAD_MIME, DLEYNA_SERVICE ++ ".BadMime"),
    (.DLEYNA_ERROR_HOST_FAILED, DLEYNA_SERVICE ++ ".HostFailed"),
    ( dleyna_error_t.DLEYNA_ERROR_IO, DLEYNA_SERVICE ++ ".IO") ]

/-- The three static vtables name the function the transport calls for a method call. -/
inductive MethodCallFn where
  | prv_object_method_call
  | prv_subtree_method_call
  deriving DecidableEq, Repr

/-- A `GDBusInterfaceVTable`: method call, get property, set property. -/
structure GDBusInterfaceVTable where
  method_call : Option MethodCallFn
  get_property : Option Unit
  set_property : Option Unit
  deriving DecidableEq, Repr

/-- The static `g_object_vtable`. -/
def g_object_vtable : GDBusInterfaceVTable :=
  { method_call := some .prv_object_method_call, get_property := none, set_property := none }

/-- The static `g_subtree_interface_vtable`. -/
def g_subtree_interface_vtable : GDBusInterfaceVTable :=
  { method_call := some .prv_subtree_method_call, get_property := none, set_property := none }

/-! ## Start-up and tear-down -/

/-- The loop of `prv_connector_init_error_domain`: `while (index) { index--; register }`. -/
def prv_connector_init_error_domain_loop (error_quark : Nat) : Nat → World → World
  | 0, w => w
  | index + 1, w =>
    match g_error_entries[index]? with
    | some entry =>
      prv_connector_init_error_domain_loop error_quark index
        (w.emit (.g_dbus_error_register_error error_quark entry.1 entry.2))
    | none => prv_connector_init_error_domain_loop error_quark index w

/-- The function `prv_connector_init_error_domain`. -/
def prv_connector_init_error_domain (error_quark : Nat) (w : World) : World :=
  prv_connector_init_error_domain_loop error_quark g_error_entries.length w

/-- The function `prv_connector_initialize`. The parser of the transport,
`g_dbus_node_info_new_for_xml`, is an argument; it answers `none` for a malformed document. -/
def prv_connector_initialize (g_dbus_node_info_new_for_xml : String → Option GDBusNodeInfo)
    (server_info root_info : String) (error_quark : Nat) (w : World) : Bool × World :=
  let w := { w with g_context := zero_context }
  let w := { w with g_context := { w.g_context with objects := some [] } }
  let w := { w with g_context := { w.g_context with clients := some [] } }
  let w := { w with g_context :=
    { w.g_context with root_node_info := g_dbus_node_info_new_for_xml root_info } }
  if w.g_context.root_node_info.isNone then (false, w)
  else
    let w := { w with g_context :=
      { w.g_context with server_node_info := g_dbus_node_info_new_for_xml server_info } }
    if w.g_context.server_node_info.isNone then (false, w)
    else (true, prv_connector_init_error_domain error_quark w)

/-- The function `prv_connector_disconnect`. -/
def prv_connector_disconnect (w : World) : World :=
  if w.g_context.owner_id ≠ 0 then
    let w := w.emit (.g_bus_unown_name w.g_context.owner_id)
    { w with g_context := { w.g_context with owner_id := 0 } }
  else w

/-- The function `prv_connector_shutdown`. The fields keep their values: the source releases
what they point to and does not reset them. -/
def prv_connector_shutdown (w : World) : World :=
  let w := if w.g_context.objects.isSome then w.emit .g_hash_table_unref_objects else w
  let w := if w.g_context.clients.isSome then w.emit .g_hash_table_unref_clients else w
  let w := prv_connector_disconnect w
  let w := match w.g_context.connection with
    | some connection => w.emit (.g_object_unref connection)
    | none => w
  let w := if w.g_context.server_node_info.isSome then w.emit .g_dbus_node_info_unref_server
    else w
  let w := if w.g_context.root_node_info.isSome then w.emit .g_dbus_node_info_unref_root
    else w
  w

/-- The function `prv_bus_acquired`. -/
def prv_bus_acquired (connection : Nat) (w : World) : Except Fault World :=
  let w := { w with g_context := { w.g_context with connection := some connection } }
  match w.g_context.connected_cb with
  | some cb => .ok (w.emit (.connected_cb cb connection))
  | none => .error .null_call

/-- The function `prv_name_lost`. -/
def prv_name_lost (connection : Nat) (w : World) : Except Fault World :=
  match w.g_context.disconnected_cb with
  | some cb => .ok (w.emit (.disconnected_cb cb connection))
  | none => .error .null_call

/-- The function `prv_connector_connect`; `owner_id` is what `g_bus_own_name` answers. -/
def prv_connector_connect (owner_id : Nat) (server_name : String)
    (connected_cb disconnected_cb : Option Nat) (w : World) : World :=
  let w := { w with g_context := { w.g_context with connected_cb := connected_cb } }
  let w := { w with g_context := { w.g_context with disconnected_cb := disconnected_cb } }
  let w := w.emit (.g_bus_own_name server_name owner_id)
  { w with g_context := { w.g_context with owner_id := owner_id } }

/-! ## Client presence tracker -/

/-- The function `prv_connector_unwatch_client`. -/
def prv_connector_unwatch_client (client_name : String) (w : World) : Except Fault World :=
  match w.g_context.clients with
  | none => .error .null_table
  | some clients =>
    match g_hash_table_lookup g_str_equal clients client_name with
    | none => .error .null_deref
    | some client_id =>
      let w := { w with g_context :=
        { w.g_context with clients := some (g_hash_table_remove g_str_equal clients client_name) } }
      .ok (w.emit (.g_bus_unwatch_name client_id))

/-- The function `prv_lost_client`, which the transport calls when a watched name vanished. -/
def prv_lost_client (name : String) (w : World) : Except Fault World :=
  match w.g_context.client_lost_cb with
  | none => .error .null_call
  | some cb =>
    let w := w.emit (.client_lost_cb cb name w.g_context.clients)
    prv_connector_unwatch_client name w

/-- The function `prv_connector_watch_client`; `watch_id` is what `g_bus_watch_name` answers
when it is called. -/
def prv_connector_watch_client (watch_id : Nat) (client_name : String) (w : World) :
    Except Fault (Bool × World) :=
  match w.g_context.clients with
  | none => .error .null_table
  | some clients =>
    if (g_hash_table_lookup g_str_equal clients client_name).isSome then .ok (false, w)
    else
      let w := w.emit (.g_bus_watch_name client_name watch_id)
      let w := { w with g_context :=
        { w.g_context with
          clients := some (g_hash_table_insert g_str_equal clients client_name watch_id) } }
      .ok (true, w)

/-- The function `prv_connector_set_client_lost_cb`. -/
def prv_connector_set_client_lost_cb (lost_cb : Option Nat) (w : World) : World :=
  { w with g_context := { w.g_context with client_lost_cb := lost_cb } }

/-! ## Object registry -/

/-- The function `prv_find_interface_info`. -/
def prv_find_interface_info (g_context : dleyna_dbus_context_t) (root : Bool)
    (interface_index : Nat) : Except Fault (Option GDBusInterfaceInfo) :=
  match (if root then g_context.root_node_info else g_context.server_node_info) with
  | none => .error .null_deref
  | some node => node.interfaces_at interface_index

/-- The function `prv_object_method_call`; `object` is the user data of the registration. -/
def prv_object_method_call (args : CallArgs) (object : dleyna_dbus_object_t) (w : World) :
    Except Fault World :=
  match object.dispatch_table[0]? with
  | some callback => .ok (w.emit (.dispatch_cb callback args))
  | none => .error .out_of_bounds

/-- The function `prv_subtree_method_call`; `call_info` is the user data handed out by
`prv_subtree_dispatch`, which the function consumes. -/
def prv_subtree_method_call (args : CallArgs) (call_info : dleyna_dbus_call_info_t)
    (w : World) : Except Fault World :=
  match call_info.object.dispatch_table[call_info.interface_index]? with
  | some callback => .ok (w.emit (.dispatch_cb callback args))
  | none => .error .out_of_bounds

/-- The function `prv_connector_publish_object`; `register_result` is what
`g_dbus_connection_register_object` answers. -/
def prv_connector_publish_object (register_result : Nat) (connection : Nat)
    (object_path : String) (root : Bool) (interface_index : Nat) (cb_table_1 : List Nat)
    (w : World) : Except Fault (Nat × World) :=
  match prv_find_interface_info w.g_context root interface_index with
  | .error f => .error f
  | .ok info =>
    let object_id := register_result
    let w := w.emit (.g_dbus_connection_register_object connection object_path info object_id)
    if object_id ≠ 0 then
      let object : dleyna_dbus_object_t :=
        { id := object_id, root_path := none, dispatch_table := cb_table_1,
          dispatch_table_size := 1, filter_cb := none }
      let (key_addr, w) := w.g_new
      let object_key : guint_ptr := { addr := key_addr, deref := object_id }
      match w.g_context.objects with
      | none => .error .null_table
      | some objects =>
        .ok (object_id, { w with g_context :=
          { w.g_context with
            objects := some (g_hash_table_insert g_direct_equal objects object_key object) } })
    else .ok (object_id, w)

/-- The function `prv_connector_publish_subtree`; `register_result` is what
`g_dbus_connection_register_subtree` answers. -/
def prv_connector_publish_subtree (register_result : Nat) (connection : Nat)
    (object_path : String) (cb_table : List Nat) (cb_table_size : Nat)
    (cb : Option dleyna_connector_interface_filter_cb_t) (w : World) :
    Except Fault (Nat × World) :=
  let object_id := register_result
  let w := w.emit (.g_dbus_connection_register_subtree connection object_path object_id)
  if object_id ≠ 0 then
    let object : dleyna_dbus_object_t :=
      { id := object_id, root_path := some object_path, dispatch_table := cb_table,
        dispatch_table_size := cb_table_size, filter_cb := cb }
    let (key_addr, w) := w.g_new
    let object_key : guint_ptr := { addr := key_addr, deref := object_id }
    match w.g_context.objects with
    | none => .error .null_table
    | some objects =>
      .ok (object_id, { w with g_context :=
        { w.g_context with
          objects := some (g_hash_table_insert g_direct_equal objects object_key object) } })
  else .ok (object_id, w)

/-- The function `prv_connector_unpublish_object`. The key handed to `g_hash_table_remove` is
`&object_id`, the address of the parameter. -/
def prv_connector_unpublish_object (connection : Nat) (object_id : Nat) (w : World) :
    Except Fault World :=
  let w := w.emit (.g_dbus_connection_unregister_object connection object_id)
  let key : guint_ptr :=
    { addr := .stack "prv_connector_unpublish_object.object_id", deref := object_id }
  match w.g_context.objects with
  | none => .error .null_table
  | some objects =>
    .ok { w with g_context :=
      { w.g_context with objects := some (g_hash_table_remove g_direct_equal objects key) } }

/-- The function `prv_connector_unpublish_subtree`. The key handed to `g_hash_table_remove` is
`&object_id`, the address of the parameter. -/
def prv_connector_unpublish_subtree (connection : Nat) (object_id : Nat) (w : World) :
    Except Fault World :=
  let w := w.emit (.g_dbus_connection_unregister_subtree connection object_id)
  let key : guint_ptr :=
    { addr := .stack "prv_connector_unpublish_subtree.object_id", deref := object_id }
  match w.g_context.objects with
  | none => .error .null_table
  | some objects =>
    .ok { w with g_context :=
      { w.g_context with objects := some (g_hash_table_remove g_direct_equal objects key) } }

/-! ## Dispatch engine -/

/-- The function `prv_subtree_enumerate`: one zeroed slot, the empty NULL-terminated list. -/
def prv_subtree_enumerate : List (Option String) := [none]

/-- The C call `g_new0 (GDBusInterfaceInfo *, n)`: NULL for `n = 0`, else `n` NULL slots. -/
def g_new0_slots (n : Nat) : Option (List (Option GDBusInterfaceInfo)) :=
  if n = 0 then none else some (List.replicate n none)

/-- The C expression `g_context.server_node_info->interfaces[i]`, whose result the loops of
the dispatch engine dereference at once. -/
def server_interface (g_context : dleyna_dbus_context_t) (i : Nat) :
    Except Fault GDBusInterfaceInfo :=
  match g_context.server_node_info with
  | none => .error .null_deref
  | some node =>
    match node.interfaces_at i with
    | .error f => .error f
    | .ok none => .error .null_deref
    | .ok (some info) => .ok info

/-- The loop of `prv_subtree_introspect` from index `i`, with `remaining` iterations to go
(`dispatch_table_size - i`), on the result array `retval` filled up to `count`. -/
def prv_subtree_introspect_loop (g_context : dleyna_dbus_context_t)
    (filter_cb : Option dleyna_connector_interface_filter_cb_t) (object_path node : String) :
    Nat → Nat → Option (List (Option GDBusInterfaceInfo)) → Nat →
    Except Fault (Option (List (Option GDBusInterfaceInfo)))
  | 0, _, retval, _ => .ok retval
  | remaining + 1, i, retval, count =>
    match server_interface g_context i with
    | .error f => .error f
    | .ok info =>
      match filter_cb with
      | none => .error .null_call
      | some filter =>
        if filter object_path node info.name then
          match retval with
          | none => .error .null_deref
          | some slots =>
            if count < slots.length then
              prv_subtree_introspect_loop g_context filter_cb object_path node remaining (i + 1)
                (some (slots.set count (some info))) (count + 1)
            else .error .out_of_bounds
        else
          prv_subtree_introspect_loop g_context filter_cb object_path node remaining (i + 1)
            retval count

/-- The function `prv_subtree_introspect`; `object` is the user data of the registration. The
reference taken by `g_dbus_interface_info_ref` on each returned interface is not recorded. -/
def prv_subtree_introspect (g_context : dleyna_dbus_context_t) (object_path node : String)
    (object : dleyna_dbus_object_t) : Except Fault (Option (List (Option GDBusInterfaceInfo))) :=
  let retval := g_new0_slots ((object.dispatch_table_size + 1) % guint_modulus)
  prv_subtree_introspect_loop g_context object.filter_cb object_path node
    object.dispatch_table_size 0 retval 0

/-- The interfaces a NULL-terminated array holds: the entries before the first NULL. -/
def null_terminated : List (Option GDBusInterfaceInfo) → List GDBusInterfaceInfo
  | [] => []
  | none :: _ => []
  | some info :: rest => info :: null_terminated rest

/-- The loop of `prv_subtree_dispatch` from index `i`, with `remaining` iterations to go
(`dispatch_table_size - i`); the result is the value of `i` when the loop is left. -/
def prv_subtree_dispatch_loop (g_context : dleyna_dbus_context_t) (interface_name : String) :
    Nat → Nat → Except Fault Nat
  | 0, i => .ok i
  | remaining + 1, i =>
    match server_interface g_context i with
    | .error f => .error f
    | .ok info =>
      if interface_name = info.name then .ok i
      else prv_subtree_dispatch_loop g_context interface_name remaining (i + 1)

/-- The function `prv_subtree_dispatch`; `object` is the user data of the registration. The
result is the returned vtable and the call routing context stored in `*out_user_data`. -/
def prv_subtree_dispatch (g_context : dleyna_dbus_context_t) (interface_name : String)
    (object : dleyna_dbus_object_t) :
    Except Fault (GDBusInterfaceVTable × dleyna_dbus_call_info_t) :=
  match prv_subtree_dispatch_loop g_context interface_name object.dispatch_table_size 0 with
  | .error f => .error f
  | .ok i => .ok (g_subtree_interface_vtable, { object := object, interface_index := i })

/-! ## Replies and signals -/

/-- The function `prv_connector_return_response`. -/
def prv_connector_return_response (message_id parameters : Nat) (w : World) : World :=
  w.emit (.g_dbus_method_invocation_return_value message_id parameters)

/-- The function `prv_connector_return_error`. -/
def prv_connector_return_error (message_id : Nat) (error : dleyna_error_t) (w : World) : World :=
  w.emit (.g_dbus_method_invocation_return_gerror message_id error)

/-- The function `prv_connector_notify`; `emitted` is what `g_dbus_connection_emit_signal`
answers. -/
def prv_connector_notify (emitted : Bool) (connection : Nat) (object_path interface_name
    notification_name : String) (parameters : Nat) (w : World) : Bool × World :=
  (emitted, w.emit (.g_dbus_connection_emit_signal connection object_path interface_name
    notification_name parameters))

/-! ## Sequences of registry calls and the registrations the transport holds -/

/-- One call of the registry interface, with what the transport answers to it. -/
inductive Op where
  | publish_object (register_result connection : Nat) (object_path : String) (root : Bool)
      (interface_index : Nat) (cb_table_1 : List Nat)
  | publish_subtree (register_result connection : Nat) (object_path : String)
      (cb_table : List Nat) (cb_table_size : Nat)
      (cb : Option dleyna_connector_interface_filter_cb_t)
  | unpublish_object (connection object_id : Nat)
  | unpublish_subtree (connection object_id : Nat)

/-- Perform one call of the registry interface. -/
def Op.apply (op : Op) (w : World) : Except Fault World :=
  match op with
  | .publish_object r c p root i t =>
    match prv_connector_publish_object r c p root i t w with
    | .error f => .error f
    | .ok (_, w) => .ok w
  | .publish_subtree r c p t n cb =>
    match prv_connector_publish_subtree r c p t n cb w with
    | .error f => .error f
    | .ok (_, w) => .ok w
  | .unpublish_object c id => prv_connector_unpublish_object c id w
  | .unpublish_subtree c id => prv_connector_unpublish_subtree c id w

/-- Perform a sequence of calls of the registry interface, first to last. -/
def run_ops : List Op → World → Except Fault World
  | [], w => .ok w
  | op :: ops, w =>
    match op.apply w with
    | .error f => .error f
    | .ok w => run_ops ops w

/-- What one call does to the registrations the transport holds; a registration is the pair of
its kind (`true` for a subtree) and its id. -/
def transport_step (live : List (Bool × Nat)) : Event → List (Bool × Nat)
  | .g_dbus_connection_register_object _ _ _ id => if id ≠ 0 then live ++ [(false, id)] else live
  | .g_dbus_connection_register_subtree _ _ id => if id ≠ 0 then live ++ [(true, id)] else live
  | .g_dbus_connection_unregister_object _ id => live.erase (false, id)
  | .g_dbus_connection_unregister_subtree _ id => live.erase (true, id)
  | _ => live

/-- The registrations the transport holds after the calls of a trace. -/
def live_registrations (trace : List Event) : List (Bool × Nat) :=
  trace.foldl transport_step []

/-- Every key of the objects table is a heap block that has been handed out. -/
def World.keys_allocated (w : World) : Bool :=
  match w.g_context.objects with
  | none => true
  | some objects =>
    objects.all (fun e =>
      match e.1.addr with
      | .heap block => decide (block < w.heap_next)
      | .stack _ => false)

/-- The part of the registry invariant that the code keeps: every key is an allocated heap
block, holds the id of its descriptor, that id is non-zero, and the transport answered it to a
registration recorded in the trace. -/
def registry_sound (w : World) : Prop :=
  w.keys_allocated = true ∧
  ∀ objects, w.g_context.objects = some objects → ∀ e ∈ objects,
    e.1.deref = e.2.id ∧ e.2.id ≠ 0 ∧
    ((∃ c p i, Event.g_dbus_connection_register_object c p i e.2.id ∈ w.trace) ∨
      (∃ c p, Event.g_dbus_connection_register_subtree c p e.2.id ∈ w.trace))

/-- The ids of the descriptors an objects table holds. -/
def registry_ids (objects : List (guint_ptr × dleyna_dbus_object_t)) : List Nat :=
  objects.map (fun e => e.2.id)

/-- Event `a` occurs in the trace and event `b` occurs after that occurrence. -/
def occurs_before (a b : Event) : List Event → Bool
  | [] => false
  | e :: rest => if e = a then rest.contains b else occurs_before a b rest

/-! ## Sample data -/

/-- A root document with the single interface `Manager`. -/
def sample_root : GDBusNodeInfo :=
  { interfaces := [{ name := "Manager", methods := ["GetVersion"] }] }

/-- A server document with the interfaces `X`, `Y`, `Z`, in that order. -/
def sample_server : GDBusNodeInfo :=
  { interfaces := [{ name := "X", methods := [] }, { name := "Y", methods := ["M"] },
      { name := "Z", methods := [] }] }

/-- A parser that knows two well-formed documents and rejects every other one. -/
def sample_parse (doc : String) : Option GDBusNodeInfo :=
  if doc = "root.xml" then some sample_root
  else if doc = "server.xml" then some sample_server
  else none

/-- The world after a successful start-up on the two sample documents. -/
def sample_world : World :=
  ( prv_connector_initialize sample_parse "server.xml" "root.xml" 1 World.start).2

/-- A filter that accepts every interface. -/
def accept_all : dleyna_connector_interface_filter_cb_t := fun _ _ _ => true

/-- A filter that accepts every interface but `Y`. -/
def reject_Y : dleyna_connector_interface_filter_cb_t := fun _ _ name => name != "Y"

/-- A subtree descriptor over all three interfaces of the sample server document. -/
def sample_subtree : dleyna_dbus_object_t :=
  { id := 4, root_path := some "/com/example/svc", dispatch_table := [10, 11, 12],
    dispatch_table_size := 3, filter_cb := some reject_Y }

/-- A subtree descriptor that covers only the first interface of the sample server document. -/
def short_subtree : dleyna_dbus_object_t :=
  { id := 5, root_path := some "/com/example/svc", dispatch_table := [10],
    dispatch_table_size := 1, filter_cb := some accept_all }

/-- The sample world after `connect` answered with owner id 5 and the bus was acquired on
connection 9. -/
def connected_world : World :=
  match prv_bus_acquired 9 (prv_connector_connect 5 "com.example.svc" (some 1) (some 2)
      sample_world) with
  | .ok w => w
  | .error _ => World.start

/-- The sample world with a client-lost callback set and `peer.X` watched under handle 21. -/
def tracking_world : World :=
  match prv_connector_watch_client 21 "peer.X"
      (prv_connector_set_client_lost_cb (some 8) sample_world) with
  | .ok r => r.2
  | .error _ => World.start

/-- A method call on interface `Y`. -/
def sample_call : CallArgs :=
  { conn := 1, sender := ":1.42", object_path := "/com/example/svc/child", interface := "Y",
    method := "M", parameters := 0, invocation := 77 }

/-! ## Subtree dispatch -/

/-- Inside the interface array `server_interface` reads the interface at that position. -/
theorem server_interface_of_get (g_context : dleyna_dbus_context_t) (node : GDBusNodeInfo)
    (hnode : g_context.server_node_info = some node) (i : Nat) (info : GDBusInterfaceInfo)
    (hi : node.interfaces[i]? = some info) : server_interface g_context i = .ok info := by
  have hlt : i < node.interfaces.length := by
    rcases List.getElem?_eq_some_iff.mp hi with ⟨h, _⟩
    exact h
  simp [server_interface, hnode, GDBusNodeInfo.interfaces_at, hlt, hi]

/-- The scan leaves the loop at the first position whose name matches. -/
theorem dispatch_loop_found (g_context : dleyna_dbus_context_t) (node : GDBusNodeInfo)
    (hnode : g_context.server_node_info = some node) (interface_name : String) (k : Nat)
    (info : GDBusInterfaceInfo) (hk : node.interfaces[k]? = some info)
    (hname : info.name = interface_name)
    (hfirst : ∀ j other, j < k → node.interfaces[j]? = some other → other.name ≠ interface_name) :
    ∀ remaining i, i ≤ k → k < i + remaining →
      prv_subtree_dispatch_loop g_context interface_name remaining i = .ok k := by
  intro remaining
  induction remaining with
  | zero => intro i h1 h2; omega
  | succ n ih =>
    intro i h1 h2
    have hklt : k < node.interfaces.length := (List.getElem?_eq_some_iff.mp hk).1
    have hilt : i < node.interfaces.length := by omega
    have hget : node.interfaces[i]? = some node.interfaces[i] := List.getElem?_eq_getElem hilt
    rw [prv_subtree_dispatch_loop, server_interface_of_get g_context node hnode i _ hget]
    by_cases hik : i = k
    · subst hik
      have : node.interfaces[i] = info := by
        rw [hget] at hk
        exact Option.some.inj hk
      simp [this, hname]
    · have hne : node.interfaces[i].name ≠ interface_name :=
        hfirst i _ (by omega) hget
      have hne2 : ¬ interface_name = node.interfaces[i].name := fun h => hne h.symm
      simp only [hne2, if_false]
      exact ih (i + 1) (by omega) (by omega)

/-- Without a match among the scanned positions the scan runs to the end of its range. -/
theorem dispatch_loop_unmatched (g_context : dleyna_dbus_context_t) (node : GDBusNodeInfo)
    (hnode : g_context.server_node_info = some node) (interface_name : String) :
    ∀ remaining i, i + remaining ≤ node.interfaces.length →
      (∀ j other, i ≤ j → j < i + remaining → node.interfaces[j]? = some other →
        other.name ≠ interface_name) →
      prv_subtree_dispatch_loop g_context interface_name remaining i = .ok (i + remaining) := by
  intro remaining
  induction remaining with
  | zero => intro i _ _; rfl
  | succ n ih =>
    intro i hlen hnone
    have hilt : i < node.interfaces.length := by omega
    have hget : node.interfaces[i]? = some node.interfaces[i] := List.getElem?_eq_getElem hilt
    rw [prv_subtree_dispatch_loop, server_interface_of_get g_context node hnode i _ hget]
    have hne : node.interfaces[i].name ≠ interface_name :=
      hnone i _ (Nat.le_refl i) (by omega) hget
    have hne2 : ¬ interface_name = node.interfaces[i].name := fun h => hne h.symm
    simp only [hne2, if_false]
    rw [ih (i + 1) (by omega) (fun j other h1 h2 => hnone j other (by omega) (by omega))]
    congr 1
    omega

/-- Claim C1. When the interface name of a subtree call is the name of one of the first
`dispatch_table_size` interfaces of the server document, `prv_subtree_dispatch` hands back the
subtree interface vtable and a call routing context that holds the descriptor and the smallest
position `k` whose interface name is that name; the descriptor's handler table having an entry
for each of its `dispatch_table_size` positions, `prv_subtree_method_call` on that context then
calls `dispatch_table[k]` with the arguments it was given, unchanged. -/
theorem subtree_dispatch_resolves_first_match (g_context : dleyna_dbus_context_t)
    (node : GDBusNodeInfo) (object : dleyna_dbus_object_t) (interface_name : String)
    (args : CallArgs) (w : World)
    (hnode : g_context.server_node_info = some node)
    (htable : object.dispatch_table_size ≤ object.dispatch_table.length)
    (hmatch : ∃ j info, j < object.dispatch_table_size ∧ node.interfaces[j]? = some info ∧
      info.name = interface_name) :
    ∃ k info cb,
      k < object.dispatch_table_size ∧
      node.interfaces[k]? = some info ∧ info.name = interface_name ∧
      (∀ j other, j < k → node.interfaces[j]? = some other → other.name ≠ interface_name) ∧
      prv_subtree_dispatch g_context interface_name object =
        .ok (g_subtree_interface_vtable, { object := object, interface_index := k }) ∧
      g_subtree_interface_vtable.method_call = some .prv_subtree_method_call ∧
      object.dispatch_table[k]? = some cb ∧
      prv_subtree_method_call args { object := object, interface_index := k } w =
        .ok { w with trace := w.trace ++ [.dispatch_cb cb args] } := by
  classical
  let P : Nat → Prop := fun j =>
    ∃ info, j < object.dispatch_table_size ∧ node.interfaces[j]? = some info ∧
      info.name = interface_name
  have hex : ∃ j, P j := by
    rcases hmatch with ⟨j, info, h1, h2, h3⟩
    exact ⟨j, info, h1, h2, h3⟩
  obtain ⟨info, hk, hget, hname⟩ := Nat.find_spec hex
  have hmin : ∀ j other, j < Nat.find hex → node.interfaces[j]? = some other →
      other.name ≠ interface_name := by
    intro j other hj hother hn
    exact Nat.find_min hex hj ⟨other, by omega, hother, hn⟩
  have hcb : Nat.find hex < object.dispatch_table.length := by omega
  refine ⟨Nat.find hex, info, object.dispatch_table[Nat.find hex], hk, hget, hname, hmin,
    ?_, rfl, List.getElem?_eq_getElem hcb, ?_⟩
  · have hloop := dispatch_loop_found g_context node hnode interface_name (Nat.find hex) info
      hget hname hmin object.dispatch_table_size 0 (Nat.zero_le _) (by omega)
    simp [prv_subtree_dispatch, hloop]
  · simp [prv_subtree_method_call, List.getElem?_eq_getElem hcb, World.emit]

/-- Claim C1, on sample data: with the interface order `[X, Y, Z]` a call naming `Y` resolves
to index 1 and reaches the second handler of the table. -/
theorem subtree_dispatch_resolves_first_match_witness :
    sample_world.g_context.server_node_info = some sample_server ∧
    sample_subtree.dispatch_table_size ≤ sample_subtree.dispatch_table.length ∧
    (prv_subtree_dispatch sample_world.g_context "Y" sample_subtree).toOption.map
      (fun r => r.2.interface_index) = some 1 ∧
    (prv_subtree_method_call sample_call { object := sample_subtree, interface_index := 1 }
      World.start).toOption.map (fun v => v.trace) = some [.dispatch_cb 11 sample_call] ∧
    ∃ k info cb,
      k < sample_subtree.dispatch_table_size ∧
      sample_server.interfaces[k]? = some info ∧ info.name = "Y" ∧
      (∀ j other, j < k → sample_server.interfaces[j]? = some other → other.name ≠ "Y") ∧
      prv_subtree_dispatch sample_world.g_context "Y" sample_subtree =
        .ok (g_subtree_interface_vtable, { object := sample_subtree, interface_index := k }) ∧
      g_subtree_interface_vtable.method_call = some .prv_subtree_method_call ∧
      sample_subtree.dispatch_table[k]? = some cb ∧
      prv_subtree_method_call sample_call { object := sample_subtree, interface_index := k }
        World.start =
        .ok { World.start with trace := World.start.trace ++ [.dispatch_cb cb sample_call] } :=
  ⟨rfl, by decide, by decide, by decide,
    subtree_dispatch_resolves_first_match sample_world.g_context sample_server sample_subtree
      "Y" sample_call World.start rfl (by decide) ⟨1, _, by decide, rfl, rfl⟩⟩

/-- Claim C2. When the interface name of a subtree call matches none of the first
`dispatch_table_size` interface names of the server document, `prv_subtree_dispatch` still
hands back the subtree interface vtable, with a call routing context whose `interface_index`
is `dispatch_table_size`; the handler table of the descriptor has no entry at that index, so
the lookup of `prv_subtree_method_call` reads outside the table and no handler is called. -/
theorem subtree_dispatch_unmatched_index_is_table_size (g_context : dleyna_dbus_context_t)
    (node : GDBusNodeInfo) (object : dleyna_dbus_object_t) (interface_name : String)
    (args : CallArgs) (w : World)
    (hnode : g_context.server_node_info = some node)
    (hsize : object.dispatch_table_size ≤ node.interfaces.length)
    (htable : object.dispatch_table.length = object.dispatch_table_size)
    (hnone : ∀ j other, j < object.dispatch_table_size → node.interfaces[j]? = some other →
      other.name ≠ interface_name) :
    prv_subtree_dispatch g_context interface_name object =
      .ok (g_subtree_interface_vtable,
        { object := object, interface_index := object.dispatch_table_size }) ∧
    g_subtree_interface_vtable.method_call = some .prv_subtree_method_call ∧
    object.dispatch_table[object.dispatch_table_size]? = none ∧
    prv_subtree_method_call args
      { object := object, interface_index := object.dispatch_table_size } w =
      .error .out_of_bounds := by
  have hloop := dispatch_loop_unmatched g_context node hnode interface_name
    object.dispatch_table_size 0 (by omega) (fun j other _ h2 => hnone j other (by omega))
  have hout : object.dispatch_table[object.dispatch_table_size]? = none :=
    List.getElem?_eq_none (by omega)
  refine ⟨?_, rfl, hout, ?_⟩
  · simp [prv_subtree_dispatch, hloop]
  · simp [prv_subtree_method_call, hout]

/-- Claim C2, on sample data: a call naming `Q` on the order `[X, Y, Z]` gets index 3. -/
theorem subtree_dispatch_unmatched_index_is_table_size_witness :
    (prv_subtree_dispatch sample_world.g_context "Q" sample_subtree).toOption.map
      (fun r => r.2.interface_index) = some 3 ∧
    prv_subtree_dispatch sample_world.g_context "Q" sample_subtree =
      .ok (g_subtree_interface_vtable,
        { object := sample_subtree, interface_index := sample_subtree.dispatch_table_size }) ∧
    g_subtree_interface_vtable.method_call = some .prv_subtree_method_call ∧
    sample_subtree.dispatch_table[sample_subtree.dispatch_table_size]? = none ∧
    prv_subtree_method_call sample_call
      { object := sample_subtree, interface_index := sample_subtree.dispatch_table_size }
      World.start = .error .out_of_bounds :=
  ⟨by decide,
    subtree_dispatch_unmatched_index_is_table_size sample_world.g_context sample_server
      sample_subtree "Q" sample_call World.start rfl (by decide) (by decide)
      (by
        intro j other hj hget
        have hj3 : j < 3 := hj
        interval_cases j <;> simp [sample_server] at hget <;> subst hget <;> decide)⟩

/-! ## Subtree introspection -/

/-- Writing at the first free slot of a partly filled result array. -/
theorem set_first_free_slot (done : List GDBusInterfaceInfo) (m : Nat)
    (info : GDBusInterfaceInfo) :
    (done.map some ++ List.replicate (m + 1) none).set done.length (some info) =
      (done ++ [info]).map some ++ List.replicate m none := by
  induction done with
  | nil => simp [List.replicate_succ]
  | cons d rest ih => simpa using ih

/-- A NULL-terminated array read back: the filled slots before the first NULL. -/
theorem null_terminated_filled (done : List GDBusInterfaceInfo) (m : Nat) :
    null_terminated (done.map some ++ List.replicate (m + 1) none) = done := by
  induction done with
  | nil => simp [List.replicate_succ, null_terminated]
  | cons d rest ih => simpa [null_terminated] using ih

/-- The introspection loop appends, in order, the interfaces of its range that the filter
accepts, as long as the result array has a free slot for each iteration. -/
theorem introspect_loop_spec (g_context : dleyna_dbus_context_t) (node : GDBusNodeInfo)
    (hnode : g_context.server_node_info = some node)
    (filter : dleyna_connector_interface_filter_cb_t) (object_path nd : String) :
    ∀ remaining i (done : List GDBusInterfaceInfo) (m : Nat),
      i + remaining ≤ node.interfaces.length → remaining < m →
      prv_subtree_introspect_loop g_context (some filter) object_path nd remaining i
          (some (done.map some ++ List.replicate m none)) done.length =
        .ok (some
          ((done ++ ((node.interfaces.drop i).take remaining).filter
              (fun info => filter object_path nd info.name)).map some ++
            List.replicate
              (m - (((node.interfaces.drop i).take remaining).filter
                (fun info => filter object_path nd info.name)).length) none)) := by
  intro remaining
  induction remaining with
  | zero => intro i done m _ _; simp [prv_subtree_introspect_loop]
  | succ n ih =>
    intro i done m hlen hm
    have hilt : i < node.interfaces.length := by omega
    have hget : node.interfaces[i]? = some node.interfaces[i] := List.getElem?_eq_getElem hilt
    have hdrop : (node.interfaces.drop i).take (n + 1) =
        node.interfaces[i] :: (node.interfaces.drop (i + 1)).take n := by
      rw [List.drop_eq_getElem_cons hilt, List.take_succ_cons]
    rw [prv_subtree_introspect_loop, server_interface_of_get g_context node hnode i _ hget, hdrop]
    obtain ⟨m', rfl⟩ : ∃ m', m = m' + 1 := ⟨m - 1, by omega⟩
    by_cases hf : filter object_path nd node.interfaces[i].name = true
    · have hfree : done.length < (done.map some ++ List.replicate (m' + 1) none).length := by
        simp
      have hstep := ih (i + 1) (done ++ [node.interfaces[i]]) m' (by omega) (by omega)
      simp only [List.length_append, List.length_singleton] at hstep
      simp only [hf, if_true, hfree, set_first_free_slot, hstep, List.filter_cons,
        List.length_cons, List.append_assoc, List.singleton_append, Nat.add_sub_add_right]
    · have hstep := ih (i + 1) done (m' + 1) (by omega) (by omega)
      simp only [hf, hstep, List.filter_cons]
      simp

/-- Claim C3, as the code has it. For a subtree descriptor with a filter whose
`dispatch_table_size` does not exceed the number of interfaces of the server document (and
with `dispatch_table_size + 1` a `guint`), `prv_subtree_introspect` returns an array of
`dispatch_table_size + 1` slots that holds, in the order of the document and each once, exactly
those of the FIRST `dispatch_table_size` interfaces that `filter_cb(path, node, name)` accepts,
followed by empty slots; read as a NULL-terminated array it is that list. -/
theorem subtree_introspect_filters_scanned_interfaces (g_context : dleyna_dbus_context_t)
    (node : GDBusNodeInfo) (object : dleyna_dbus_object_t)
    (filter : dleyna_connector_interface_filter_cb_t) (object_path nd : String)
    (hnode : g_context.server_node_info = some node)
    (hfilter : object.filter_cb = some filter)
    (hsize : object.dispatch_table_size ≤ node.interfaces.length)
    (hguint : object.dispatch_table_size + 1 < guint_modulus) :
    ∃ slots,
      prv_subtree_introspect g_context object_path nd object = .ok (some slots) ∧
      slots =
        ((node.interfaces.take object.dispatch_table_size).filter
          (fun info => filter object_path nd info.name)).map some ++
        List.replicate (object.dispatch_table_size + 1 -
          ((node.interfaces.take object.dispatch_table_size).filter
            (fun info => filter object_path nd info.name)).length) none ∧
      slots.length = object.dispatch_table_size + 1 ∧
      null_terminated slots =
        (node.interfaces.take object.dispatch_table_size).filter
          (fun info => filter object_path nd info.name) := by
  have hle : ((node.interfaces.take object.dispatch_table_size).filter
      (fun info => filter object_path nd info.name)).length ≤ object.dispatch_table_size := by
    refine le_trans (List.length_filter_le _ _) ?_
    simp
  have hloop := introspect_loop_spec g_context node hnode filter object_path nd
    object.dispatch_table_size 0 [] (object.dispatch_table_size + 1) (by omega) (by omega)
  simp only [List.map_nil, List.nil_append, List.length_nil, List.drop_zero] at hloop
  refine ⟨_, ?_, rfl, ?_, ?_⟩
  · rw [prv_subtree_introspect, Nat.mod_eq_of_lt hguint, hfilter]
    simp only [g_new0_slots, Nat.add_one_ne_zero, if_false]
    exact hloop
  · simp
    omega
  · obtain ⟨r, hr⟩ : ∃ r, object.dispatch_table_size + 1 -
        ((node.interfaces.take object.dispatch_table_size).filter
          (fun info => filter object_path nd info.name)).length = r + 1 :=
      ⟨object.dispatch_table_size -
        ((node.interfaces.take object.dispatch_table_size).filter
          (fun info => filter object_path nd info.name)).length, by omega⟩
    rw [hr, null_terminated_filled]

/-- Claim C3, as the code has it, on sample data: with the order `[X, Y, Z]`, all three
scanned and `Y` rejected by the filter, the result is `X`, `Z` and two empty slots. -/
theorem subtree_introspect_filters_scanned_interfaces_witness :
    prv_subtree_introspect sample_world.g_context "/com/example/svc" "child" sample_subtree =
      .ok (some [some { name := "X", methods := [] }, some { name := "Z", methods := [] },
        none, none]) ∧
    ∃ slots,
      prv_subtree_introspect sample_world.g_context "/com/example/svc" "child" sample_subtree =
        .ok (some slots) ∧
      slots =
        ((sample_server.interfaces.take sample_subtree.dispatch_table_size).filter
          (fun info => reject_Y "/com/example/svc" "child" info.name)).map some ++
        List.replicate (sample_subtree.dispatch_table_size + 1 -
          ((sample_server.interfaces.take sample_subtree.dispatch_table_size).filter
            (fun info => reject_Y "/com/example/svc" "child" info.name)).length) none ∧
      slots.length = sample_subtree.dispatch_table_size + 1 ∧
      null_terminated slots =
        (sample_server.interfaces.take sample_subtree.dispatch_table_size).filter
          (fun info => reject_Y "/com/example/svc" "child" info.name) :=
  ⟨rfl,
    subtree_introspect_filters_scanned_interfaces sample_world.g_context sample_server
      sample_subtree reject_Y "/com/example/svc" "child" rfl rfl (by decide) (by decide)⟩

/-- Claim C3 as stated fails: the server document has the interfaces `X`, `Y`, `Z`, the
filter accepts all of them, and the descriptor has `dispatch_table_size = 1`; the result holds
`X` alone, so the accepted interfaces `Y` and `Z` are left out. -/
theorem subtree_introspect_leaves_out_accepted_interface :
    prv_subtree_introspect sample_world.g_context "/com/example/svc" "child" short_subtree =
      .ok (some [some { name := "X", methods := [] }, none]) ∧
    sample_world.g_context.server_node_info = some sample_server ∧
    short_subtree.filter_cb = some accept_all ∧
    sample_server.interfaces.filter
      (fun info => accept_all "/com/example/svc" "child" info.name) =
      [{ name := "X", methods := [] }, { name := "Y", methods := ["M"] },
        { name := "Z", methods := [] }] ∧
    ¬ ∃ slots,
      prv_subtree_introspect sample_world.g_context "/com/example/svc" "child" short_subtree =
        .ok (some slots) ∧
      null_terminated slots =
        sample_server.interfaces.filter
          (fun info => accept_all "/com/example/svc" "child" info.name) := by
  have hrun : prv_subtree_introspect sample_world.g_context "/com/example/svc" "child"
      short_subtree = .ok (some [some { name := "X", methods := [] }, none]) := rfl
  refine ⟨hrun, rfl, rfl, by decide, ?_⟩
  rintro ⟨slots, h1, h2⟩
  rw [hrun] at h1
  have hs : slots = [some { name := "X", methods := [] }, none] := by
    injection h1 with h1
    injection h1 with h1
    exact h1.symm
  subst hs
  revert h2
  decide

/-! ## Object registry -/

/-- Inserting under a key that no entry has adds one entry and changes no other. -/
theorem insert_new_key {κ ν : Type} (key_equal : κ → κ → Bool) (table : List (κ × ν)) (key : κ)
    (value : ν) (hnew : ∀ e ∈ table, key_equal e.1 key = false) :
    g_hash_table_insert key_equal table key value = table ++ [(key, value)] := by
  have hany : table.any (fun e => key_equal e.1 key) = false := by
    rw [List.any_eq_false]
    intro e he
    simp [hnew e he]
  simp [g_hash_table_insert, hany]

/-- Removing a key that no entry has changes nothing. -/
theorem remove_absent_key {κ ν : Type} (key_equal : κ → κ → Bool) (table : List (κ × ν))
    (key : κ) (hnew : ∀ e ∈ table, key_equal e.1 key = false) :
    g_hash_table_remove key_equal table key = table := by
  rw [g_hash_table_remove, List.filter_eq_self]
  intro e he
  simp [hnew e he]

/-- A block that has not been handed out yet is the key of no entry. -/
theorem allocated_keys_differ_from_new_block (w : World)
    (objects : List (guint_ptr × dleyna_dbus_object_t))
    (hobjects : w.g_context.objects = some objects) (hkeys : w.keys_allocated = true)
    (block value : Nat) (hblock : w.heap_next ≤ block) :
    ∀ e ∈ objects, g_direct_equal e.1 { addr := .heap block, deref := value } = false := by
  intro e he
  simp only [World.keys_allocated, hobjects, List.all_eq_true] at hkeys
  have h := hkeys e he
  cases haddr : e.1.addr with
  | heap b =>
    simp only [haddr, decide_eq_true_eq] at h
    have hne : b ≠ block := by omega
    simp [g_direct_equal, haddr, hne]
  | stack v => simp [haddr] at h

/-- The address of a local variable is the key of no entry. -/
theorem allocated_keys_differ_from_local (w : World)
    (objects : List (guint_ptr × dleyna_dbus_object_t))
    (hobjects : w.g_context.objects = some objects) (hkeys : w.keys_allocated = true)
    (slot : String) (value : Nat) :
    ∀ e ∈ objects, g_direct_equal e.1 { addr := .stack slot, deref := value } = false := by
  intro e he
  simp only [World.keys_allocated, hobjects, List.all_eq_true] at hkeys
  have h := hkeys e he
  cases haddr : e.1.addr with
  | heap b => simp [g_direct_equal, haddr]
  | stack v => simp [haddr] at h

/-- Claim C4, as the code has it. In an initialised world whose selected document has an entry
or its terminator at `interface_index`, `prv_connector_publish_object` asks the transport to
register the path with that interface; when the transport answers zero it returns zero and
leaves the context, the objects registry included, as it was; when the transport answers a
non-zero id it returns that id and the registry gains exactly one entry, under a new key that
holds the id, whose descriptor has that id, the given handler table and
`dispatch_table_size = 1`. The index itself is not checked. -/
theorem publish_object_result (w : World) (objects : List (guint_ptr × dleyna_dbus_object_t))
    (node : GDBusNodeInfo) (register_result connection : Nat) (object_path : String)
    (root : Bool) (interface_index : Nat) (cb_table_1 : List Nat)
    (hobjects : w.g_context.objects = some objects)
    (hkeys : w.keys_allocated = true)
    (hnode : (if root then w.g_context.root_node_info else w.g_context.server_node_info) =
      some node)
    (hindex : interface_index ≤ node.interfaces.length) :
    (register_result = 0 →
      prv_connector_publish_object register_result connection object_path root interface_index
          cb_table_1 w =
        .ok (0,
          { g_context := w.g_context, heap_next := w.heap_next,
            trace := w.trace ++ [.g_dbus_connection_register_object connection object_path
              node.interfaces[interface_index]? 0] })) ∧
    (register_result ≠ 0 →
      prv_connector_publish_object register_result connection object_path root interface_index
          cb_table_1 w =
        .ok (register_result,
          { g_context :=
              { w.g_context with
                objects := some (objects ++
                  [({ addr := .heap w.heap_next, deref := register_result },
                    { id := register_result, root_path := none, dispatch_table := cb_table_1,
                      dispatch_table_size := 1, filter_cb := none })]) },
            heap_next := w.heap_next + 1,
            trace := w.trace ++ [.g_dbus_connection_register_object connection object_path
              node.interfaces[interface_index]? register_result] }) ∧
      ∀ e ∈ objects, e.1.addr ≠ .heap w.heap_next) := by
  have hinfo : prv_find_interface_info w.g_context root interface_index =
      .ok node.interfaces[interface_index]? := by
    rw [prv_find_interface_info, hnode]
    simp only [GDBusNodeInfo.interfaces_at]
    by_cases h1 : interface_index < node.interfaces.length
    · simp [h1]
    · have h2 : interface_index = node.interfaces.length := by omega
      simp [h2]
  constructor
  · intro hzero
    subst hzero
    simp [prv_connector_publish_object, World.g_new, World.emit, hinfo]
  · intro hne
    have hfresh := allocated_keys_differ_from_new_block w objects hobjects hkeys
      w.heap_next register_result (Nat.le_refl _)
    constructor
    · simp [prv_connector_publish_object, World.g_new, World.emit, hinfo, hne, hobjects,
        insert_new_key g_direct_equal objects _ _ hfresh]
    · intro e he haddr
      have := hfresh e he
      simp [g_direct_equal, haddr] at this

/-- Claim C4, as the code has it, on sample data: the root interface published at `/a/b` with
the transport answering 0, and with the transport answering 7. -/
theorem publish_object_result_witness :
    sample_world.g_context.objects = some [] ∧
    sample_world.keys_allocated = true ∧
    sample_world.g_context.root_node_info = some sample_root ∧
    prv_connector_publish_object 0 1 "/a/b" true 0 [3] sample_world =
      .ok (0,
        { g_context := sample_world.g_context, heap_next := sample_world.heap_next,
          trace := sample_world.trace ++ [.g_dbus_connection_register_object 1 "/a/b"
            sample_root.interfaces[0]? 0] }) ∧
    prv_connector_publish_object 7 1 "/a/b" true 0 [3] sample_world =
      .ok (7,
        { g_context :=
            { sample_world.g_context with
              objects := some ([] ++
                [({ addr := .heap sample_world.heap_next, deref := 7 },
                  { id := 7, root_path := none, dispatch_table := [3],
                    dispatch_table_size := 1, filter_cb := none })]) },
          heap_next := sample_world.heap_next + 1,
          trace := sample_world.trace ++ [.g_dbus_connection_register_object 1 "/a/b"
            sample_root.interfaces[0]? 7] }) ∧
    (prv_connector_publish_object 7 1 "/a/b" true 0 [3] sample_world).toOption.map
      (fun r => (r.1, r.2.g_context.objects.map registry_ids)) = some (7, some [7]) :=
  ⟨rfl, by decide, rfl,
    (publish_object_result sample_world [] sample_root 0 1 "/a/b" true 0 [3] rfl (by decide) rfl
      (by decide)).1 rfl,
    ((publish_object_result sample_world [] sample_root 7 1 "/a/b" true 0 [3] rfl (by decide) rfl
      (by decide)).2 (by decide)).1,
    by decide⟩

/-- Claim C4 as stated fails: the root document has one interface and `publish_object` is
called with `interface_index = 5`. The lookup reads outside the interface array; the call does
not return zero, whatever the transport would have answered. -/
theorem publish_object_invalid_index_not_reported :
    sample_world.g_context.root_node_info = some sample_root ∧
    sample_root.interfaces.length = 1 ∧
    prv_find_interface_info sample_world.g_context true 5 = .error .out_of_bounds ∧
    prv_connector_publish_object 0 1 "/a/b" true 5 [3] sample_world = .error .out_of_bounds ∧
    ¬ ∃ v, prv_connector_publish_object 0 1 "/a/b" true 5 [3] sample_world = .ok (0, v) ∧
      v.g_context.objects = sample_world.g_context.objects := by
  have hrun : prv_connector_publish_object 0 1 "/a/b" true 5 [3] sample_world =
      .error .out_of_bounds := rfl
  refine ⟨rfl, rfl, rfl, hrun, ?_⟩
  rintro ⟨v, h, _⟩
  rw [hrun] at h
  cases h

/-- In a world whose registry keys are heap blocks, neither unpublish function removes
anything from the objects registry: the key it looks for is the address of its own parameter,
and `g_direct_equal` compares addresses. -/
theorem unpublish_leaves_registry (w : World)
    (objects : List (guint_ptr × dleyna_dbus_object_t))
    (hobjects : w.g_context.objects = some objects) (hkeys : w.keys_allocated = true)
    (connection object_id : Nat) :
    prv_connector_unpublish_object connection object_id w =
      .ok { w with trace := w.trace ++
        [.g_dbus_connection_unregister_object connection object_id] } ∧
    prv_connector_unpublish_subtree connection object_id w =
      .ok { w with trace := w.trace ++
        [.g_dbus_connection_unregister_subtree connection object_id] } := by
  have h1 := remove_absent_key g_direct_equal objects _
    (allocated_keys_differ_from_local w objects hobjects hkeys
      "prv_connector_unpublish_object.object_id" object_id)
  have h2 := remove_absent_key g_direct_equal objects _
    (allocated_keys_differ_from_local w objects hobjects hkeys
      "prv_connector_unpublish_subtree.object_id" object_id)
  constructor
  · simp only [prv_connector_unpublish_object, World.emit, hobjects, h1]
    simp [← hobjects]
  · simp only [prv_connector_unpublish_subtree, World.emit, hobjects, h2]
    simp [← hobjects]

/-- Claim C5, the code at the failing input: an object is published with the transport
answering 7 and a subtree with the transport answering 8; `unpublish_object (1, 7)` and
`unpublish_subtree (1, 8)` ask the transport to unregister the ids, and the objects registry
still holds both descriptors afterwards, each under a key that holds its id. -/
theorem unpublish_keeps_descriptor_in_registry :
    (run_ops [.publish_object 7 1 "/a/b" true 0 [3],
        .publish_subtree 8 1 "/com/example/svc" [10, 11, 12] 3 (some accept_all)]
      sample_world).toOption.map (fun w => w.g_context.objects.map registry_ids) =
      some (some [7, 8]) ∧
    (run_ops [.publish_object 7 1 "/a/b" true 0 [3],
        .publish_subtree 8 1 "/com/example/svc" [10, 11, 12] 3 (some accept_all),
        .unpublish_object 1 7, .unpublish_subtree 1 8]
      sample_world).toOption.map
        (fun w => (w.g_context.objects.map registry_ids,
          w.g_context.objects.map (fun t => t.map (fun e => e.1.deref)),
          w.trace.drop (sample_world.trace.length + 2))) =
      some (some [7, 8], some [7, 8],
        [.g_dbus_connection_unregister_object 1 7,
          .g_dbus_connection_unregister_subtree 1 8]) := by
  constructor <;> decide

/-- Adding the entry of a successful registration keeps the sound part of the invariant. -/
theorem registry_sound_add (w : World) (objects : List (guint_ptr × dleyna_dbus_object_t))
    (hobjects : w.g_context.objects = some objects) (hsound : registry_sound w)
    (object : dleyna_dbus_object_t) (event : Event) (hid : object.id ≠ 0)
    (hevent : (∃ c p i, event = Event.g_dbus_connection_register_object c p i object.id) ∨
      (∃ c p, event = Event.g_dbus_connection_register_subtree c p object.id)) :
    registry_sound
      { g_context :=
          { w.g_context with
            objects := some (objects ++
              [({ addr := .heap w.heap_next, deref := object.id }, object)]) },
        heap_next := w.heap_next + 1,
        trace := w.trace ++ [event] } := by
  obtain ⟨hkeys, hentries⟩ := hsound
  constructor
  · simp only [World.keys_allocated, hobjects, List.all_eq_true] at hkeys
    simp only [World.keys_allocated, List.all_eq_true, List.mem_append, List.mem_singleton]
    rintro e (he | rfl)
    · have h := hkeys e he
      cases haddr : e.1.addr with
      | heap b =>
        simp only [haddr, decide_eq_true_eq] at h
        simp only [decide_eq_true_eq]
        omega
      | stack v => simp [haddr] at h
    · simp
  · intro objects2 hobjects2 e he
    simp only [Option.some.injEq] at hobjects2
    subst hobjects2
    rcases List.mem_append.mp he with he | he
    · obtain ⟨h1, h2, h3⟩ := hentries objects hobjects e he
      refine ⟨h1, h2, ?_⟩
      rcases h3 with ⟨c, p, i, h⟩ | ⟨c, p, h⟩
      · exact Or.inl ⟨c, p, i, List.mem_append_left _ h⟩
      · exact Or.inr ⟨c, p, List.mem_append_left _ h⟩
    · simp only [List.mem_singleton] at he
      subst he
      refine ⟨rfl, hid, ?_⟩
      rcases hevent with ⟨c, p, i, h⟩ | ⟨c, p, h⟩
      · exact Or.inl ⟨c, p, i, by simp [h]⟩
      · exact Or.inr ⟨c, p, by simp [h]⟩

/-- A call that only extends the trace keeps the sound part of the invariant. -/
theorem registry_sound_emit (w : World) (hsound : registry_sound w) (event : Event) :
    registry_sound { w with trace := w.trace ++ [event] } := by
  obtain ⟨hkeys, hentries⟩ := hsound
  refine ⟨hkeys, ?_⟩
  intro objects hobjects e he
  obtain ⟨h1, h2, h3⟩ := hentries objects hobjects e he
  refine ⟨h1, h2, ?_⟩
  rcases h3 with ⟨c, p, i, h⟩ | ⟨c, p, h⟩
  · exact Or.inl ⟨c, p, i, List.mem_append_left _ h⟩
  · exact Or.inr ⟨c, p, List.mem_append_left _ h⟩

/-- Every call of the registry interface keeps the sound part of the invariant. -/
theorem registry_sound_step (op : Op) (w v : World) (hsound : registry_sound w)
    (hstep : op.apply w = .ok v) : registry_sound v := by
  cases hobjects : w.g_context.objects with
  | none =>
    cases op with
    | publish_object r c p root i t =>
      simp only [Op.apply, prv_connector_publish_object, World.g_new, World.emit] at hstep
      cases hinfo : prv_find_interface_info w.g_context root i with
      | error f => simp [hinfo] at hstep
      | ok info =>
        by_cases hr : r = 0
        · simp only [hinfo, hr, ne_eq, not_true_eq_false, if_false, Except.ok.injEq] at hstep
          subst hstep
          exact registry_sound_emit w hsound _
        · simp [hinfo, hr, hobjects] at hstep
    | publish_subtree r c p t n cb =>
      simp only [Op.apply, prv_connector_publish_subtree, World.g_new, World.emit] at hstep
      by_cases hr : r = 0
      · simp only [hr, ne_eq, not_true_eq_false, if_false, Except.ok.injEq] at hstep
        subst hstep
        exact registry_sound_emit w hsound _
      · simp [hr, hobjects] at hstep
    | unpublish_object c id =>
      simp [Op.apply, prv_connector_unpublish_object, World.emit, hobjects] at hstep
    | unpublish_subtree c id =>
      simp [Op.apply, prv_connector_unpublish_subtree, World.emit, hobjects] at hstep
  | some objects =>
    cases op with
    | publish_object r c p root i t =>
      simp only [Op.apply, prv_connector_publish_object, World.g_new, World.emit] at hstep
      cases hinfo : prv_find_interface_info w.g_context root i with
      | error f => simp [hinfo] at hstep
      | ok info =>
        by_cases hr : r = 0
        · simp only [hinfo, hr, ne_eq, not_true_eq_false, if_false, Except.ok.injEq] at hstep
          subst hstep
          exact registry_sound_emit w hsound _
        · have hfresh := allocated_keys_differ_from_new_block w objects hobjects hsound.1
            w.heap_next r (Nat.le_refl _)
          simp only [hinfo, hr, ne_eq, not_false_eq_true, if_true, hobjects,
            insert_new_key g_direct_equal objects _ _ hfresh, Except.ok.injEq] at hstep
          subst hstep
          exact registry_sound_add w objects hobjects hsound
            { id := r, root_path := none, dispatch_table := t, dispatch_table_size := 1,
              filter_cb := none } _ hr (Or.inl ⟨c, p, info, rfl⟩)
    | publish_subtree r c p t n cb =>
      simp only [Op.apply, prv_connector_publish_subtree, World.g_new, World.emit] at hstep
      by_cases hr : r = 0
      · simp only [hr, ne_eq, not_true_eq_false, if_false, Except.ok.injEq] at hstep
        subst hstep
        exact registry_sound_emit w hsound _
      · have hfresh := allocated_keys_differ_from_new_block w objects hobjects hsound.1
          w.heap_next r (Nat.le_refl _)
        simp only [hr, ne_eq, not_false_eq_true, if_true, hobjects,
          insert_new_key g_direct_equal objects _ _ hfresh, Except.ok.injEq] at hstep
        subst hstep
        exact registry_sound_add w objects hobjects hsound
          { id := r, root_path := some p, dispatch_table := t, dispatch_table_size := n,
            filter_cb := cb } _ hr (Or.inr ⟨c, p, rfl⟩)
    | unpublish_object c id =>
      rw [Op.apply, (unpublish_leaves_registry w objects hobjects hsound.1 c id).1] at hstep
      simp only [Except.ok.injEq] at hstep
      subst hstep
      exact registry_sound_emit w hsound _
    | unpublish_subtree c id =>
      rw [Op.apply, (unpublish_leaves_registry w objects hobjects hsound.1 c id).2] at hstep
      simp only [Except.ok.injEq] at hstep
      subst hstep
      exact registry_sound_emit w hsound _

/-- In every state reached from a freshly initialised world by calls of the registry interface,
each registry entry is stored under a key that holds its descriptor's id, the id is non-zero,
and the transport answered it to a registration. Whether that registration is still held by
the transport is not part of this statement. -/
theorem registry_sound_reachable :
    ∀ (ops : List Op) (w v : World),
      registry_sound w → run_ops ops w = .ok v → registry_sound v := by
  intro ops
  induction ops with
  | nil =>
    intro w v hsound hrun
    simp only [run_ops, Except.ok.injEq] at hrun
    exact hrun ▸ hsound
  | cons op rest ih =>
    intro w v hsound hrun
    rw [run_ops] at hrun
    cases hstep : op.apply w with
    | error f => simp [hstep] at hrun
    | ok u =>
      simp only [hstep] at hrun
      exact ih u v (registry_sound_step op w u hsound hstep) hrun

/-- Claim C6, the code at the failing input: from the freshly initialised registry,
`publish_object` with the transport answering 7 followed by `unpublish_object (1, 7)` reaches
a state in which the transport holds no registration and the objects registry still holds the
descriptor with id 7. -/
theorem registry_holds_unregistered_descriptor :
    sample_world.g_context.objects = some [] ∧
    (run_ops [.publish_object 7 1 "/a/b" true 0 [3]] sample_world).toOption.map
      (fun w => (w.g_context.objects.map registry_ids, live_registrations w.trace)) =
      some (some [7], [(false, 7)]) ∧
    (run_ops [.publish_object 7 1 "/a/b" true 0 [3], .unpublish_object 1 7]
      sample_world).toOption.map
      (fun w => (w.g_context.objects.map registry_ids, live_registrations w.trace)) =
      some (some [7], []) := by
  refine ⟨rfl, ?_, ?_⟩ <;> decide

/-! ## Client presence tracker -/

/-- A lookup finds nothing exactly when no entry has an equal key. -/
theorem lookup_eq_none_iff {κ ν : Type} (key_equal : κ → κ → Bool) (table : List (κ × ν))
    (key : κ) :
    g_hash_table_lookup key_equal table key = none ↔ ∀ e ∈ table, key_equal e.1 key = false := by
  simp [g_hash_table_lookup, List.find?_eq_none]

/-- After a removal the lookup of the removed name finds nothing. -/
theorem lookup_remove_same (table : List (String × Nat)) (name : String) :
    g_hash_table_lookup g_str_equal (g_hash_table_remove g_str_equal table name) name = none := by
  rw [lookup_eq_none_iff]
  intro e he
  simp only [g_hash_table_remove, List.mem_filter] at he
  simpa using he.2

/-- Filtering by a condition that every sought element meets does not change what is found. -/
theorem find_filter_of_imp {α : Type} (p q : α → Bool) (l : List α)
    (h : ∀ x, p x = true → q x = true) : (l.filter q).find? p = l.find? p := by
  induction l with
  | nil => rfl
  | cons a rest ih =>
    by_cases hq : q a = true
    · rw [List.filter_cons_of_pos hq, List.find?_cons, List.find?_cons, ih]
    · have hp : p a = false := by
        cases hpa : p a with
        | false => rfl
        | true => exact absurd (h a hpa) hq
      rw [List.filter_cons_of_neg hq, List.find?_cons, hp]
      exact ih

/-- A removal does not change the lookup of any other name. -/
theorem lookup_remove_other (table : List (String × Nat)) (name other : String)
    (hne : other ≠ name) :
    g_hash_table_lookup g_str_equal (g_hash_table_remove g_str_equal table name) other =
      g_hash_table_lookup g_str_equal table other := by
  rw [g_hash_table_lookup, g_hash_table_remove, find_filter_of_imp, g_hash_table_lookup]
  intro e he
  have h1 : e.1 = other := by simpa [g_str_equal] using he
  have h2 : ¬ e.1 = name := fun h => hne (h1 ▸ h)
  simp [g_str_equal, h2]

/-- Claim C7. On a present clients table: when the name is not tracked, `watch_client` returns
true, starts one transport watch and stores the handle the transport answered under the name,
which then has exactly one entry, and a second `watch_client` of the name right after returns
false and changes nothing; when the name is tracked, `watch_client` returns false, starts no
watch and leaves the world, the clients table included, as it was. -/
theorem watch_client_adds_untracked_name_once (w : World) (clients : List (String × Nat))
    (watch_id later_id : Nat) (client_name : String)
    (hclients : w.g_context.clients = some clients) :
    (g_hash_table_lookup g_str_equal clients client_name = none →
      prv_connector_watch_client watch_id client_name w =
        .ok (true,
          { g_context :=
              { w.g_context with clients := some (clients ++ [(client_name, watch_id)]) },
            heap_next := w.heap_next,
            trace := w.trace ++ [.g_bus_watch_name client_name watch_id] }) ∧
      (clients ++ [(client_name, watch_id)]).filter (fun e => g_str_equal e.1 client_name) =
        [(client_name, watch_id)] ∧
      prv_connector_watch_client later_id client_name
          { g_context :=
              { w.g_context with clients := some (clients ++ [(client_name, watch_id)]) },
            heap_next := w.heap_next,
            trace := w.trace ++ [.g_bus_watch_name client_name watch_id] } =
        .ok (false,
          { g_context :=
              { w.g_context with clients := some (clients ++ [(client_name, watch_id)]) },
            heap_next := w.heap_next,
            trace := w.trace ++ [.g_bus_watch_name client_name watch_id] })) ∧
    (∀ handle, g_hash_table_lookup g_str_equal clients client_name = some handle →
      prv_connector_watch_client watch_id client_name w = .ok (false, w)) := by
  constructor
  · intro hnone
    have hnew := (lookup_eq_none_iff g_str_equal clients client_name).mp hnone
    refine ⟨?_, ?_, ?_⟩
    · simp [prv_connector_watch_client, hclients, hnone, World.emit,
        insert_new_key g_str_equal clients client_name watch_id hnew]
    · rw [List.filter_append, List.filter_eq_nil_iff.mpr (fun e he => by simp [hnew e he])]
      simp [g_str_equal]
    · have hfound : g_hash_table_lookup g_str_equal (clients ++ [(client_name, watch_id)])
          client_name = some watch_id := by
        have hfind : clients.find? (fun e => g_str_equal e.1 client_name) = none := by
          rw [List.find?_eq_none]
          intro e he
          simp [hnew e he]
        rw [g_hash_table_lookup, List.find?_append, hfind]
        simp [g_str_equal]
      simp [prv_connector_watch_client, hfound]
  · intro handle hsome
    simp [prv_connector_watch_client, hclients, hsome]

/-- Claim C7, on sample data: `watch_client ("peer.X")` twice in a row on the empty tracker
returns true then false, with one watch started and one entry for `peer.X`. -/
theorem watch_client_adds_untracked_name_once_witness :
    sample_world.g_context.clients = some [] ∧
    (prv_connector_watch_client 21 "peer.X" sample_world).toOption.map
      (fun r => (r.1, r.2.g_context.clients, r.2.trace.drop sample_world.trace.length)) =
      some (true, some [("peer.X", 21)], [.g_bus_watch_name "peer.X" 21]) ∧
    (prv_connector_watch_client 22 "peer.X" tracking_world).toOption.map
      (fun r => (r.1, r.2.g_context.clients, r.2.trace.drop sample_world.trace.length)) =
      some (false, some [("peer.X", 21)], [.g_bus_watch_name "peer.X" 21]) ∧
    prv_connector_watch_client 21 "peer.X" sample_world =
      .ok (true,
        { g_context := { sample_world.g_context with clients := some ([] ++ [("peer.X", 21)]) },
          heap_next := sample_world.heap_next,
          trace := sample_world.trace ++ [.g_bus_watch_name "peer.X" 21] }) ∧
    ([] ++ [("peer.X", 21)]).filter (fun e => g_str_equal e.1 "peer.X") = [("peer.X", 21)] ∧
    prv_connector_watch_client 22 "peer.X"
        { g_context := { sample_world.g_context with clients := some ([] ++ [("peer.X", 21)]) },
          heap_next := sample_world.heap_next,
          trace := sample_world.trace ++ [.g_bus_watch_name "peer.X" 21] } =
      .ok (false,
        { g_context := { sample_world.g_context with clients := some ([] ++ [("peer.X", 21)]) },
          heap_next := sample_world.heap_next,
          trace := sample_world.trace ++ [.g_bus_watch_name "peer.X" 21] }) :=
  ⟨rfl, by decide, by decide,
    (watch_client_adds_untracked_name_once sample_world [] 21 22 "peer.X" rfl).1 rfl⟩

/-- Claim C8. For a tracked name, with a client-lost callback set, `prv_lost_client` calls the
callback with the name while the clients table still holds the entry of the name, then removes
the entry and stops the transport watch with the stored handle; afterwards the name is
untracked, the lookup of every other name is as before, and `watch_client` of the name
returns true again. -/
theorem lost_client_calls_back_before_removal (w : World) (clients : List (String × Nat))
    (cb handle watch_id : Nat) (name : String)
    (hclients : w.g_context.clients = some clients)
    (hcb : w.g_context.client_lost_cb = some cb)
    (htracked : g_hash_table_lookup g_str_equal clients name = some handle) :
    prv_lost_client name w =
      .ok { g_context :=
              { w.g_context with
                clients := some (g_hash_table_remove g_str_equal clients name) },
            heap_next := w.heap_next,
            trace := w.trace ++
              [.client_lost_cb cb name (some clients), .g_bus_unwatch_name handle] } ∧
    g_hash_table_lookup g_str_equal (g_hash_table_remove g_str_equal clients name) name = none ∧
    (∀ other, other ≠ name →
      g_hash_table_lookup g_str_equal (g_hash_table_remove g_str_equal clients name) other =
        g_hash_table_lookup g_str_equal clients other) ∧
    ∃ v, prv_connector_watch_client watch_id name
        { g_context :=
            { w.g_context with
              clients := some (g_hash_table_remove g_str_equal clients name) },
          heap_next := w.heap_next,
          trace := w.trace ++
            [.client_lost_cb cb name (some clients), .g_bus_unwatch_name handle] } =
      .ok (true, v) := by
  refine ⟨?_, lookup_remove_same clients name,
    fun other hne => lookup_remove_other clients name other hne, ?_⟩
  · simp [prv_lost_client, hcb, World.emit, prv_connector_unwatch_client, hclients, htracked]
  · have hnone := lookup_remove_same clients name
    simp [prv_connector_watch_client, hnone]

/-- Claim C8, on sample data: `peer.X`, watched under handle 21, vanishes. -/
theorem lost_client_calls_back_before_removal_witness :
    tracking_world.g_context.clients = some [("peer.X", 21)] ∧
    tracking_world.g_context.client_lost_cb = some 8 ∧
    g_hash_table_lookup g_str_equal [("peer.X", 21)] "peer.X" = some 21 ∧
    (prv_lost_client "peer.X" tracking_world).toOption.map
      (fun v => (v.g_context.clients, v.trace.drop tracking_world.trace.length)) =
      some (some [],
        [.client_lost_cb 8 "peer.X" (some [("peer.X", 21)]), .g_bus_unwatch_name 21]) ∧
    prv_lost_client "peer.X" tracking_world =
      .ok { g_context :=
              { tracking_world.g_context with
                clients := some (g_hash_table_remove g_str_equal [("peer.X", 21)] "peer.X") },
            heap_next := tracking_world.heap_next,
            trace := tracking_world.trace ++
              [.client_lost_cb 8 "peer.X" (some [("peer.X", 21)]), .g_bus_unwatch_name 21] } :=
  ⟨rfl, rfl, by decide, by decide,
    (lost_client_calls_back_before_removal tracking_world [("peer.X", 21)] 8 21 23 "peer.X"
      rfl rfl (by decide)).1⟩

/-! ## Start-up and tear-down -/

/-- Claim C9, as the code has it. `prv_connector_shutdown` releases, in this order and each
only when it is present: the objects registry, the clients registry, the owned bus name (the
disconnect, performed when `owner_id` is non-zero, which also resets `owner_id` to zero), the
connection handle, the parsed server document and the parsed root document. It makes no other
call and changes no other field. -/
theorem shutdown_releases_present_components_in_order (w : World) :
    (prv_connector_shutdown w).trace =
      w.trace ++
        (if w.g_context.objects.isSome then [Event.g_hash_table_unref_objects] else []) ++
        (if w.g_context.clients.isSome then [Event.g_hash_table_unref_clients] else []) ++
        (if w.g_context.owner_id ≠ 0 then [Event.g_bus_unown_name w.g_context.owner_id]
          else []) ++
        (match w.g_context.connection with
          | some connection => [Event.g_object_unref connection]
          | none => []) ++
        (if w.g_context.server_node_info.isSome then [Event.g_dbus_node_info_unref_server]
          else []) ++
        (if w.g_context.root_node_info.isSome then [Event.g_dbus_node_info_unref_root]
          else []) ∧
    (prv_connector_shutdown w).g_context = { w.g_context with owner_id := 0 } ∧
    (prv_connector_shutdown w).heap_next = w.heap_next := by
  obtain ⟨⟨objects, clients, root_node_info, server_node_info, owner_id, connection, c1, c2, c3⟩,
    heap_next, trace⟩ := w
  cases objects <;> cases clients <;> cases root_node_info <;> cases server_node_info <;>
    cases connection <;> by_cases h : owner_id = 0 <;>
    simp [prv_connector_shutdown, prv_connector_disconnect, World.emit, h]

/-- Claim C9 as stated fails: in a connected world with `owner_id = 5` and every component
present, `shutdown` releases the two registries first and only then gives up the bus name. -/
theorem shutdown_releases_registries_before_disconnect :
    connected_world.g_context.owner_id = 5 ∧
    (prv_connector_shutdown connected_world).trace.drop connected_world.trace.length =
      [.g_hash_table_unref_objects, .g_hash_table_unref_clients, .g_bus_unown_name 5,
        .g_object_unref 9, .g_dbus_node_info_unref_server, .g_dbus_node_info_unref_root] ∧
    occurs_before .g_hash_table_unref_objects (.g_bus_unown_name 5)
      (prv_connector_shutdown connected_world).trace = true ∧
    occurs_before .g_hash_table_unref_clients (.g_bus_unown_name 5)
      (prv_connector_shutdown connected_world).trace = true ∧
    ¬ (occurs_before (.g_bus_unown_name 5) .g_hash_table_unref_objects
        (prv_connector_shutdown connected_world).trace = true ∧
      occurs_before (.g_bus_unown_name 5) .g_hash_table_unref_clients
        (prv_connector_shutdown connected_world).trace = true) := by
  refine ⟨rfl, ?_, ?_, ?_, ?_⟩ <;> decide

/-- The error-domain loop registers the entries below `index`, last first. -/
theorem init_error_domain_loop_trace (error_quark : Nat) :
    ∀ index (w : World), index ≤ g_error_entries.length →
      prv_connector_init_error_domain_loop error_quark index w =
        { w with trace := w.trace ++
          ((g_error_entries.take index).reverse.map
            (fun entry => Event.g_dbus_error_register_error error_quark entry.1 entry.2)) } := by
  intro index
  induction index with
  | zero => intro w _; simp [prv_connector_init_error_domain_loop]
  | succ n ih =>
    intro w hlen
    have hlt : n < g_error_entries.length := by omega
    have hget : g_error_entries[n]? = some g_error_entries[n] := List.getElem?_eq_getElem hlt
    rw [prv_connector_init_error_domain_loop]
    simp only [hget]
    have hrev : (g_error_entries.take (n + 1)).reverse =
        g_error_entries[n] :: (g_error_entries.take n).reverse := by
      rw [List.take_succ, hget]
      simp
    rw [ih _ (by omega), hrev]
    simp [World.emit]

/-- Claim C10, as the code has it. `prv_connector_initialize` returns false exactly when one
of the two documents fails to parse. Whatever it returns, both registries have been allocated
and are empty, the root document is retained when it parsed, and every other field is zeroed.
When it returns false no parsed server document is retained and no error name has been
registered. When it returns true both parsed documents are retained and each entry of
`g_error_entries` has been registered once against the given domain. -/
theorem initialize_result (parse : String → Option GDBusNodeInfo)
    (server_info root_info : String) (error_quark : Nat) (w : World) :
    (( prv_connector_initialize parse server_info root_info error_quark w).1 = false ↔
      parse root_info = none ∨ parse server_info = none) ∧
    ( prv_connector_initialize parse server_info root_info error_quark w).2.g_context
      = { zero_context with
          objects := some [], clients := some [], root_node_info := parse root_info,
          server_node_info :=
            if (parse root_info).isSome then parse server_info else none } ∧
    (( prv_connector_initialize parse server_info root_info error_quark w).1 = false →
      ( prv_connector_initialize parse server_info root_info error_quark
        w).2.g_context.server_node_info = none ∧
      ( prv_connector_initialize parse server_info root_info error_quark w).2.trace = w.trace) ∧
    (( prv_connector_initialize parse server_info root_info error_quark w).1 = true →
      (∃ root server, parse root_info = some root ∧ parse server_info = some server ∧
        ( prv_connector_initialize parse server_info root_info error_quark
          w).2.g_context.root_node_info = some root ∧
        ( prv_connector_initialize parse server_info root_info error_quark
          w).2.g_context.server_node_info = some server) ∧
      ( prv_connector_initialize parse server_info root_info error_quark w).2.trace =
        w.trace ++ g_error_entries.reverse.map
          (fun entry => Event.g_dbus_error_register_error error_quark entry.1 entry.2)) := by
  have hloop := fun v => init_error_domain_loop_trace error_quark g_error_entries.length v
    (Nat.le_refl _)
  simp only [List.take_length] at hloop
  cases hroot : parse root_info with
  | none => simp [ prv_connector_initialize, hroot, zero_context]
  | some root =>
    cases hserver : parse server_info with
    | none => simp [ prv_connector_initialize, hroot, hserver, zero_context]
    | some server =>
      simp [ prv_connector_initialize, hroot, hserver, zero_context,
        prv_connector_init_error_domain, hloop]

/-- Claim C10 as stated fails: with a malformed root document `prv_connector_initialize`
returns false with both registries allocated, and with a well-formed root document and a
malformed server document it returns false with the parsed root document retained. -/
theorem initialize_failure_leaves_partial_state :
    sample_parse "bad.xml" = none ∧
    ( prv_connector_initialize sample_parse "server.xml" "bad.xml" 1 World.start).1 = false ∧
    ( prv_connector_initialize sample_parse "server.xml" "bad.xml" 1
      World.start).2.g_context.objects = some [] ∧
    ( prv_connector_initialize sample_parse "server.xml" "bad.xml" 1
      World.start).2.g_context.clients = some [] ∧
    ( prv_connector_initialize sample_parse "bad.xml" "root.xml" 1 World.start).1 = false ∧
    ( prv_connector_initialize sample_parse "bad.xml" "root.xml" 1
      World.start).2.g_context.root_node_info = some sample_root ∧
    ¬ (( prv_connector_initialize sample_parse "bad.xml" "root.xml" 1 World.start).1 = false →
      ( prv_connector_initialize sample_parse "bad.xml" "root.xml" 1
      World.start).2.g_context.objects = none ∧
      ( prv_connector_initialize sample_parse "bad.xml" "root.xml" 1
      World.start).2.g_context.clients = none ∧
      ( prv_connector_initialize sample_parse "bad.xml" "root.xml" 1
      World.start).2.g_context.root_node_info = none ∧
      ( prv_connector_initialize sample_parse "bad.xml" "root.xml" 1
      World.start).2.g_context.server_node_info = none) := by
  refine ⟨by decide, rfl, rfl, rfl, rfl, rfl, ?_⟩
  intro h
  have h2 := (h rfl).2.2.1
  exact absurd h2 (by decide)

/-- A freshly initialised world satisfies the sound part of the registry invariant. -/
theorem registry_sound_initial (parse : String → Option GDBusNodeInfo)
    (server_info root_info : String) (error_quark : Nat) (start : World) :
    registry_sound ( prv_connector_initialize parse server_info root_info error_quark start).2 := by
  have hctx : ( prv_connector_initialize parse server_info root_info error_quark
      start).2.g_context.objects = some [] := by
    cases hroot : parse root_info with
    | none => simp [ prv_connector_initialize, hroot]
    | some root =>
      cases hserver : parse server_info with
      | none => simp [ prv_connector_initialize, hroot, hserver]
      | some server =>
        have hloop := fun u => init_error_domain_loop_trace error_quark
          g_error_entries.length u (Nat.le_refl _)
        simp [ prv_connector_initialize, hroot, hserver, prv_connector_init_error_domain, hloop]
  constructor
  · simp [World.keys_allocated, hctx]
  · intro objects hobjects e he
    rw [hctx] at hobjects
    simp only [Option.some.injEq] at hobjects
    subst hobjects
    simp at he

end DleynaConnectorDbus
